import Mathlib

/-!
Verification of search.cpp (SugaR-AI-ICCF engine search) against its
natural-language specification.  The definitions below are a shallow
embedding of the functions and code fragments of src/src/search.cpp;
machine integers are modelled as `Int` (no overflow is reachable at the
magnitudes involved), and C++ integer division (truncation toward zero)
is written `Int.tdiv`.
-/

namespace SearchSpec

/-- Modelled from the spec: the value constants come from the engine's
types.h, which is not part of the repository snapshot (only search.cpp
is).  The spec fixes `MAX_PLY ≈ 246` and the reserved magnitudes
`INF`, `NONE`, `DRAW`, `MATE`, `MATE_IN_MAX_PLY`, `TB_WIN_IN_MAX_PLY`;
the concrete numbers follow the standard engine layout the spec
describes: `VALUE_MATE = 32000`, `VALUE_INFINITE = VALUE_MATE + 1`,
`VALUE_NONE = VALUE_MATE + 2`, `VALUE_MATE_IN_MAX_PLY = VALUE_MATE - MAX_PLY`,
`VALUE_TB_WIN_IN_MAX_PLY = VALUE_MATE_IN_MAX_PLY - 2 * MAX_PLY`. -/
def MAX_PLY : Int := 246

def VALUE_ZERO : Int := 0

def VALUE_DRAW : Int := 0

def VALUE_KNOWN_WIN : Int := 10000

def VALUE_MATE : Int := 32000

def VALUE_INFINITE : Int := 32001

def VALUE_NONE : Int := 32002

def VALUE_MATE_IN_MAX_PLY : Int := VALUE_MATE - MAX_PLY

def VALUE_MATED_IN_MAX_PLY : Int := -VALUE_MATE_IN_MAX_PLY

def VALUE_TB_WIN_IN_MAX_PLY : Int := VALUE_MATE_IN_MAX_PLY - 2 * MAX_PLY

def VALUE_TB_LOSS_IN_MAX_PLY : Int := -VALUE_TB_WIN_IN_MAX_PLY

/-- Modelled from the spec: `PawnValueMg` comes from types.h (missing
from the snapshot); the standard middlegame pawn value is 126.  The
claims proved below do not depend on the concrete number. -/
def PawnValueMg : Int := 126

/-- Moves are opaque 16-bit codes in the engine; `MOVE_NONE = 0`. -/
abbrev Move := Nat

def MOVE_NONE : Move := 0

/-- mated_in(ply): worst possible score, mated in the given ply. -/
def mated_in (ply : Int) : Int := -VALUE_MATE + ply

/-- mate_in(ply): best possible score, mate in the given ply. -/
def mate_in (ply : Int) : Int := VALUE_MATE - ply

/-- Embedding of `value_to_tt` (search.cpp:1880-1886): adjusts a mate or
TB score from "plies to mate from the root" to "plies to mate from the
current position" before storing it in the transposition table. -/
def value_to_tt (v ply : Int) : Int :=
  if v ≥ VALUE_TB_WIN_IN_MAX_PLY then v + ply
  else if v ≤ VALUE_TB_LOSS_IN_MAX_PLY then v - ply
  else v

/-- Embedding of `value_from_tt` (search.cpp:1895-1922): the inverse
adjustment on retrieval, with clamping of mate scores that the 50-move
counter could invalidate. -/
def value_from_tt (v ply r50c : Int) : Int :=
  if v = VALUE_NONE then VALUE_NONE
  else if v ≥ VALUE_TB_WIN_IN_MAX_PLY then
    if v ≥ VALUE_MATE_IN_MAX_PLY ∧ VALUE_MATE - v > 99 - r50c then
      VALUE_MATE_IN_MAX_PLY - 1
    else v - ply
  else if v ≤ VALUE_TB_LOSS_IN_MAX_PLY then
    if v ≤ VALUE_MATED_IN_MAX_PLY ∧ VALUE_MATE + v > 99 - r50c then
      VALUE_MATED_IN_MAX_PLY + 1
    else v + ply
  else v

end SearchSpec

namespace SearchSpec

/-- Claim C1: for every value v different from VALUE_NONE and strictly
between VALUE_TB_LOSS_IN_MAX_PLY and VALUE_TB_WIN_IN_MAX_PLY, every
ply ≥ 0 and every rule50 counter, storing with value_to_tt and reading
back with value_from_tt returns v unchanged. -/
theorem tt_round_trip (v ply r50c : Int)
    (hne : v ≠ VALUE_NONE)
    (hlo : VALUE_TB_LOSS_IN_MAX_PLY < v)
    (hhi : v < VALUE_TB_WIN_IN_MAX_PLY)
    (hply : 0 ≤ ply) :
    value_from_tt (value_to_tt v ply) ply r50c = v := by
  simp only [value_to_tt, value_from_tt, VALUE_TB_WIN_IN_MAX_PLY,
    VALUE_TB_LOSS_IN_MAX_PLY, VALUE_MATE_IN_MAX_PLY, VALUE_MATED_IN_MAX_PLY,
    VALUE_MATE, VALUE_NONE, MAX_PLY] at *
  split_ifs <;> omega

/-- Witness for C1 at a concrete input. -/
theorem tt_round_trip_witness :
    value_from_tt (value_to_tt 137 3) 3 40 = 137 :=
  tt_round_trip 137 3 40 (by decide) (by decide) (by decide) (by decide)

/-- Claim C2: value_from_tt case analysis.  VALUE_NONE passes through;
for v ≥ VALUE_TB_WIN_IN_MAX_PLY it clamps to VALUE_MATE_IN_MAX_PLY - 1
exactly when v is a genuine mate score invalidated by the 50-move
counter and returns v - ply otherwise; symmetrically for
v ≤ VALUE_TB_LOSS_IN_MAX_PLY; and the concrete instance: a value
VALUE_MATE - 10 stored at ply 5 and retrieved at ply 5 with rule50
counter 95 yields VALUE_MATE_IN_MAX_PLY - 1. -/
theorem value_from_tt_spec (v ply r50c : Int) :
    (value_from_tt VALUE_NONE ply r50c = VALUE_NONE)
    ∧ (v ≠ VALUE_NONE → VALUE_TB_WIN_IN_MAX_PLY ≤ v →
        value_from_tt v ply r50c =
          if VALUE_MATE_IN_MAX_PLY ≤ v ∧ VALUE_MATE - v > 99 - r50c then
            VALUE_MATE_IN_MAX_PLY - 1
          else v - ply)
    ∧ (v ≤ VALUE_TB_LOSS_IN_MAX_PLY →
        value_from_tt v ply r50c =
          if v ≤ VALUE_MATED_IN_MAX_PLY ∧ VALUE_MATE + v > 99 - r50c then
            VALUE_MATED_IN_MAX_PLY + 1
          else v + ply)
    ∧ (value_from_tt (value_to_tt (VALUE_MATE - 10) 5) 5 95 =
        VALUE_MATE_IN_MAX_PLY - 1) := by
  refine ⟨?_, ?_, ?_, ?_⟩
  · unfold value_from_tt
    simp
  · intro hne hge
    simp only [value_from_tt, VALUE_TB_WIN_IN_MAX_PLY,
      VALUE_TB_LOSS_IN_MAX_PLY, VALUE_MATE_IN_MAX_PLY, VALUE_MATED_IN_MAX_PLY,
      VALUE_MATE, VALUE_NONE, MAX_PLY] at *
    split_ifs <;> omega
  · intro hle
    simp only [value_from_tt, VALUE_TB_WIN_IN_MAX_PLY,
      VALUE_TB_LOSS_IN_MAX_PLY, VALUE_MATE_IN_MAX_PLY, VALUE_MATED_IN_MAX_PLY,
      VALUE_MATE, VALUE_NONE, MAX_PLY] at *
    split_ifs <;> omega
  · decide

/-- Witness for C2 at a concrete input. -/
theorem value_from_tt_spec_witness :
    value_from_tt 31500 4 90 = 31500 - 4 := by
  have h := (value_from_tt_spec 31500 4 90).2.1 (by decide) (by decide)
  simpa using h

end SearchSpec

namespace SearchSpec

/-- State of the aspiration window in Thread::search (search.cpp:544-609):
the current bounds and the widening increment delta. -/
structure AspState where
  alpha : Int
  beta : Int
  delta : Int
deriving DecidableEq, Repr

/-- The delta update after a failed aspiration attempt
(search.cpp:606, `delta += delta / 4 + 5`, C++ division truncates). -/
def next_delta (d : Int) : Int := d + d.tdiv 4 + 5

/-- Embedding of one iteration of the aspiration re-search loop
(search.cpp:592-606), given the value returned by the root search:
`some s` means the window was widened to s and the loop re-searches,
`none` means the loop exits.  On fail-low beta is halved toward alpha
before alpha is lowered (the C++ assignments read the old values). -/
def asp_step (s : AspState) (bestValue : Int) : Option AspState :=
  if bestValue ≤ s.alpha then
    some { alpha := max (bestValue - s.delta) (-VALUE_INFINITE),
           beta := (s.alpha + s.beta).tdiv 2,
           delta := next_delta s.delta }
  else if bestValue ≥ s.beta then
    some { alpha := s.alpha,
           beta := min (bestValue + s.delta) VALUE_INFINITE,
           delta := next_delta s.delta }
  else none

/-- Running the aspiration loop over a sequence of root-search results
within a single depth, stopping when the loop exits. -/
def asp_run (s : AspState) : List Int → AspState
  | [] => s
  | bv :: bvs =>
      match asp_step s bv with
      | some t => asp_run t bvs
      | none => s

/-- A failed aspiration attempt never decreases delta (one step). -/
theorem asp_step_delta_mono (s : AspState) (bv : Int) (t : AspState)
    (hd : 0 ≤ s.delta) (h : asp_step s bv = some t) :
    s.delta ≤ t.delta ∧ 0 ≤ t.delta := by
  have h4 : 0 ≤ Int.tdiv s.delta 4 := Int.tdiv_nonneg hd (by decide)
  unfold asp_step at h
  split_ifs at h <;>
    simp only [Option.some.injEq] at h <;>
      subst h <;> simp only [next_delta] <;> omega

/-- Delta never decreases along any run of the aspiration loop. -/
theorem asp_run_delta_mono (bvs : List Int) (s : AspState)
    (hd : 0 ≤ s.delta) : s.delta ≤ (asp_run s bvs).delta := by
  induction bvs generalizing s with
  | nil => simp [asp_run]
  | cons bv bvs ih =>
      simp only [asp_run]
      cases h : asp_step s bv with
      | none => simp
      | some t =>
          have hm := asp_step_delta_mono s bv t hd h
          exact le_trans hm.1 (ih t hm.2)

/-- Claim C3: every failed aspiration attempt updates the window as
specified — on fail-low (bestValue ≤ alpha) beta becomes
(alpha+beta)/2 and alpha becomes max(bestValue − delta, −INF); on
fail-high (bestValue ≥ beta, not fail-low) beta becomes
min(bestValue + delta, +INF); otherwise the loop exits; after each
failure delta becomes delta + delta/4 + 5, and along every sequence of
re-searches within one depth delta never decreases (starting from any
non-negative delta, as the initial delta 17 is). -/
theorem aspiration_window_spec (s : AspState) (bv : Int) (bvs : List Int) :
    (bv ≤ s.alpha →
      asp_step s bv = some ⟨max (bv - s.delta) (-VALUE_INFINITE),
        (s.alpha + s.beta).tdiv 2, s.delta + s.delta.tdiv 4 + 5⟩)
    ∧ (s.alpha < bv → s.beta ≤ bv →
      asp_step s bv = some ⟨s.alpha, min (bv + s.delta) VALUE_INFINITE,
        s.delta + s.delta.tdiv 4 + 5⟩)
    ∧ (s.alpha < bv → bv < s.beta → asp_step s bv = none)
    ∧ (0 ≤ s.delta → s.delta ≤ (asp_run s bvs).delta) := by
  refine ⟨?_, ?_, ?_, fun hd => asp_run_delta_mono bvs s hd⟩
  · intro h
    simp [asp_step, next_delta, h]
  · intro h1 h2
    have hnle : ¬ bv ≤ s.alpha := not_le.mpr h1
    simp [asp_step, next_delta, hnle, h2]
  · intro h1 h2
    have hnle : ¬ bv ≤ s.alpha := not_le.mpr h1
    have hnge : ¬ bv ≥ s.beta := not_le.mpr h2
    simp [asp_step, hnle, hnge]

/-- Witness for C3 at concrete inputs. -/
theorem aspiration_window_spec_witness :
    asp_step ⟨-10, 10, 17⟩ (-10) = some ⟨-27, 0, 26⟩
    ∧ asp_step ⟨-10, 10, 17⟩ 12 = some ⟨-10, 29, 26⟩
    ∧ asp_step ⟨-10, 10, 17⟩ 0 = none
    ∧ (17 : Int) ≤ (asp_run ⟨-10, 10, 17⟩ [12, 40, 0]).delta := by
  have h1 := (aspiration_window_spec ⟨-10, 10, 17⟩ (-10) []).1 (by decide)
  have h2 := (aspiration_window_spec ⟨-10, 10, 17⟩ 12 []).2.1
    (by decide) (by decide)
  have h3 := (aspiration_window_spec ⟨-10, 10, 17⟩ 0 []).2.2.1
    (by decide) (by decide)
  have h4 := (aspiration_window_spec ⟨-10, 10, 17⟩ 0 [12, 40, 0]).2.2.2
    (by decide)
  refine ⟨?_, ?_, h3, h4⟩
  · rw [h1]; decide
  · rw [h2]; decide

end SearchSpec

namespace SearchSpec

/-- Transposition-table bound types (types.h, modelled from the spec's
description of TT entries: none, upper, lower, exact). -/
inductive Bound where
  | NONE
  | UPPER
  | LOWER
  | EXACT
deriving DecidableEq, Repr

/-- One `tte->save(key, value, pv, bound, depth, move, eval)` call, the
observable transposition-table effect of a code path. -/
structure TTWrite where
  key : Nat
  value : Int
  pv : Bool
  bound : Bound
  depth : Int
  move : Move
  eval : Int
deriving DecidableEq, Repr

/-- Outcome of the game-cycle check at the top of a node: either an
immediate return carrying the returned value and the list of TT writes
performed, or fall-through with the resulting gameCycle flag and
alpha. -/
inductive CycleStepResult where
  | ret (v : Int) (writes : List TTWrite)
  | cont (gameCycle : Bool) (alpha : Int)
deriving DecidableEq, Repr

/-- Embedding of the main search's game-cycle check at non-root nodes
(search.cpp:778-793): when the position has a game cycle at the current
ply, if VALUE_DRAW ≥ beta it saves an upper-bound VALUE_DRAW entry
(move MOVE_NONE, eval VALUE_NONE, the node's depth) and returns
VALUE_DRAW; otherwise it sets gameCycle and raises alpha to
VALUE_DRAW. -/
def search_cycle_step (hasCycle : Bool) (alpha beta : Int) (posKey : Nat)
    (ttPv : Bool) (depth : Int) (gameCycle : Bool) : CycleStepResult :=
  if hasCycle then
    if VALUE_DRAW ≥ beta then
      .ret VALUE_DRAW
        [⟨posKey, VALUE_DRAW, ttPv, Bound.UPPER, depth, MOVE_NONE, VALUE_NONE⟩]
    else .cont true (max alpha VALUE_DRAW)
  else .cont gameCycle alpha

/-- Embedding of the quiescence search's game-cycle check
(search.cpp:1662-1669): when the position has a game cycle at the
current ply, if VALUE_DRAW ≥ beta it returns VALUE_DRAW immediately —
performing no TT write — and otherwise raises alpha to VALUE_DRAW and
sets gameCycle. -/
def qsearch_cycle_step (hasCycle : Bool) (alpha beta : Int)
    (gameCycle : Bool) : CycleStepResult :=
  if hasCycle then
    if VALUE_DRAW ≥ beta then .ret VALUE_DRAW []
    else .cont true (max alpha VALUE_DRAW)
  else .cont gameCycle alpha

/-- Claim C5: at every non-root node with a game cycle at the current
ply, if VALUE_DRAW ≥ beta the search stores a TT entry with value
VALUE_DRAW, bound BOUND_UPPER, move MOVE_NONE, eval VALUE_NONE and the
node's depth, and returns VALUE_DRAW; otherwise it sets the gameCycle
flag and raises alpha to max(alpha, VALUE_DRAW) and continues. -/
theorem search_cycle_step_spec (alpha beta : Int) (posKey : Nat)
    (ttPv : Bool) (depth : Int) (gameCycle : Bool) :
    (VALUE_DRAW ≥ beta →
      search_cycle_step true alpha beta posKey ttPv depth gameCycle =
        CycleStepResult.ret VALUE_DRAW
          [⟨posKey, VALUE_DRAW, ttPv, Bound.UPPER, depth, MOVE_NONE,
            VALUE_NONE⟩])
    ∧ (VALUE_DRAW < beta →
      search_cycle_step true alpha beta posKey ttPv depth gameCycle =
        CycleStepResult.cont true (max alpha VALUE_DRAW)) := by
  constructor
  · intro h
    simp [search_cycle_step, h]
  · intro h
    simp [search_cycle_step, not_le.mpr h]

/-- Witness for C5 at concrete inputs. -/
theorem search_cycle_step_spec_witness :
    search_cycle_step true (-30) 0 7 true 9 false =
      CycleStepResult.ret VALUE_DRAW
        [⟨7, VALUE_DRAW, true, Bound.UPPER, 9, MOVE_NONE, VALUE_NONE⟩]
    ∧ search_cycle_step true (-30) 5 7 true 9 false =
      CycleStepResult.cont true (max (-30) VALUE_DRAW) :=
  ⟨(search_cycle_step_spec (-30) 0 7 true 9 false).1 (by decide),
   (search_cycle_step_spec (-30) 5 7 true 9 false).2 (by decide)⟩

/-- Counterexample to claim C8: at a qsearch node with a game cycle and
VALUE_DRAW ≥ beta, the quiescence search returns VALUE_DRAW with an
empty list of TT writes, while the main search's cycle check at the
same window performs an upper-bound TT store — so the two steps do not
behave the same and qsearch stores nothing. -/
theorem qsearch_cycle_no_tt_store :
    qsearch_cycle_step true (-5) 0 false = CycleStepResult.ret VALUE_DRAW []
    ∧ search_cycle_step true (-5) 0 7 false 1 false =
        CycleStepResult.ret VALUE_DRAW
          [⟨7, VALUE_DRAW, false, Bound.UPPER, 1, MOVE_NONE, VALUE_NONE⟩]
    ∧ qsearch_cycle_step true (-5) 0 false ≠
        search_cycle_step true (-5) 0 7 false 1 false := by
  refine ⟨by decide, by decide, by decide⟩

/-- Claim C8 (amended): at every qsearch node with a game cycle at the
current ply, if VALUE_DRAW ≥ beta the quiescence search returns
VALUE_DRAW immediately without writing the transposition table;
otherwise it raises alpha to max(alpha, VALUE_DRAW) and sets the cycle
flag — the same control flow as the main search's check except that no
TT entry is stored on the cutoff. -/
theorem qsearch_cycle_step_spec (alpha beta : Int) (gameCycle : Bool) :
    (VALUE_DRAW ≥ beta →
      qsearch_cycle_step true alpha beta gameCycle =
        CycleStepResult.ret VALUE_DRAW [])
    ∧ (VALUE_DRAW < beta →
      qsearch_cycle_step true alpha beta gameCycle =
        CycleStepResult.cont true (max alpha VALUE_DRAW)) := by
  constructor
  · intro h
    simp [qsearch_cycle_step, h]
  · intro h
    simp [qsearch_cycle_step, not_le.mpr h]

/-- Witness for the amended C8 at concrete inputs. -/
theorem qsearch_cycle_step_spec_witness :
    qsearch_cycle_step true 3 0 false = CycleStepResult.ret VALUE_DRAW []
    ∧ qsearch_cycle_step true 3 8 false =
        CycleStepResult.cont true (max 3 VALUE_DRAW) :=
  ⟨(qsearch_cycle_step_spec 3 0 false).1 (by decide),
   (qsearch_cycle_step_spec 3 8 false).2 (by decide)⟩

end SearchSpec

namespace SearchSpec

/-- Observable outcome of the "check for a new best move" section of the
main search's move loop, run after a move has been searched and undone
(search.cpp:1499-1566): either an immediate return from `search`
carrying the returned value and the TT writes performed on the way out,
or continuation with the updated best value, alpha, best move, whether
`update_pv` was called, the root-move score written (root nodes only),
and whether the loop breaks on a fail-high. -/
inductive AfterMove where
  | ret (v : Int) (writes : List TTWrite)
  | cont (bestValue alpha : Int) (bestMove : Move) (pvUpdated : Bool)
      (rmScore : Option Int) (brk : Bool)
deriving DecidableEq, Repr

/-- Root-move score update (search.cpp:1508-1535): at root nodes the
searched move's score is set to value if it is the first move or beats
alpha, and to -VALUE_INFINITE otherwise; non-root nodes write none. -/
def root_rm_score (rootNode : Bool) (moveCount value alpha : Int) :
    Option Int :=
  if rootNode then
    some (if moveCount = 1 ∨ value > alpha then value else -VALUE_INFINITE)
  else none

/-- Embedding of search.cpp:1501-1566.  If the stop flag is observed the
function returns VALUE_ZERO at once, before the root-move update, the
best-value/alpha/bestMove updates, the `update_pv` call and the node's
final TT store (which all live on the continuation path); otherwise the
step 19 logic runs: new best value when value > bestValue, and when
value also beats alpha the best move is recorded, the PV is updated at
non-root PV nodes, and alpha rises (PV nodes below beta) or the loop
breaks on a fail-high. -/
def after_move_step (stop rootNode pvNode : Bool)
    (value bestValue alpha beta : Int) (move bestMove : Move)
    (moveCount : Int) : AfterMove :=
  if stop then AfterMove.ret VALUE_ZERO []
  else
    if value > bestValue then
      if value > alpha then
        if pvNode = true ∧ value < beta then
          AfterMove.cont value value move (pvNode && !rootNode)
            (root_rm_score rootNode moveCount value alpha) false
        else
          AfterMove.cont value alpha move (pvNode && !rootNode)
            (root_rm_score rootNode moveCount value alpha) true
      else
        AfterMove.cont value alpha bestMove false
          (root_rm_score rootNode moveCount value alpha) false
    else
      AfterMove.cont bestValue alpha bestMove false
        (root_rm_score rootNode moveCount value alpha) false

/-- Claim C4: whenever the stop flag is observed after a move has been
searched in the move loop, the search returns VALUE_ZERO immediately,
with no best-move update, no PV update, no root-move score write and no
TT write; and conversely the only immediate return this section
produces is the value 0 on stop. -/
theorem stop_returns_zero (stop rootNode pvNode : Bool)
    (value bestValue alpha beta : Int) (move bestMove : Move)
    (moveCount : Int) :
    (stop = true →
      after_move_step stop rootNode pvNode value bestValue alpha beta
        move bestMove moveCount = AfterMove.ret VALUE_ZERO [])
    ∧ (∀ v w,
      after_move_step stop rootNode pvNode value bestValue alpha beta
        move bestMove moveCount = AfterMove.ret v w →
      stop = true ∧ v = VALUE_ZERO ∧ w = []) := by
  constructor
  · intro h
    simp [after_move_step, h]
  · intro v w h
    unfold after_move_step at h
    split_ifs at h <;> simp_all

/-- Witness for C4 at a concrete input. -/
theorem stop_returns_zero_witness :
    after_move_step true false false 25 10 0 50 17 0 3 =
      AfterMove.ret VALUE_ZERO []
    ∧ (after_move_step true false false 25 10 0 50 17 0 3 =
        AfterMove.ret 0 [] → True ∧ (0 : Int) = VALUE_ZERO) := by
  have h1 := (stop_returns_zero true false false 25 10 0 50 17 0 3).1 rfl
  have h2 := (stop_returns_zero true false false 25 10 0 50 17 0 3).2 0 []
  exact ⟨h1, fun hr => ⟨trivial, ((h2 hr).2.1).symm ▸ rfl⟩⟩

/-- Embedding of `futility_margin` (search.cpp:71-73). -/
def futility_margin (d : Int) (improving : Bool) : Int :=
  214 * (d - if improving then 1 else 0)

/-- Embedding of the early-pruning futility step (search.cpp:1014 and
1025-1040).  In check the static eval is VALUE_NONE (search.cpp:974);
in fullSearch mode the not-in-check path jumps straight to the move
loop (search.cpp:1014).  The step returns the eval (pruning the node)
only when the outer guard holds — non-PV, no excluded move, no game
cycle, not under nmpGuard, |eval| < 2·VALUE_KNOWN_WIN — and the
futility condition holds: depth < 6, no king danger (probed only when
rootDepth > 10), |alpha| < VALUE_KNOWN_WIN, eval − margin ≥ beta and
eval < VALUE_KNOWN_WIN.  Otherwise the node continues. -/
def futility_step (pvNode excludedMove gameCycle nmpGuard fullSearch
    inCheck kingDangerProbe : Bool) (rootDepth depth : Int)
    (improving : Bool) (evalIn alpha beta : Int) : Option Int :=
  let eval := if inCheck then VALUE_NONE else evalIn
  if inCheck = false ∧ fullSearch = true then none
  else if pvNode = false ∧ excludedMove = false ∧ gameCycle = false
      ∧ nmpGuard = false ∧ |eval| < 2 * VALUE_KNOWN_WIN then
    if depth < 6
        ∧ (if rootDepth > 10 then kingDangerProbe else false) = false
        ∧ |alpha| < VALUE_KNOWN_WIN
        ∧ eval - futility_margin depth improving ≥ beta
        ∧ eval < VALUE_KNOWN_WIN then
      some eval
    else none
  else none

/-- Counterexample to claim C6: a non-PV, non-excluded, non-cycle node
not in check with depth 1 < 6, alpha = 0, beta = 50, eval = 300 and
improving, so every condition the claim lists holds and the claimed
margin 214·(1−1) = 0 gives eval − margin ≥ beta — yet because the node
is searched under nmpGuard (the null-move verification guard, which the
claim omits) the code does not return eval but continues. -/
theorem futility_missing_guard :
    (1 : Int) < 6 ∧ |(0 : Int)| < VALUE_KNOWN_WIN
    ∧ (300 : Int) - futility_margin 1 true ≥ 50
    ∧ (300 : Int) < VALUE_KNOWN_WIN
    ∧ futility_step false false false true false false false 12 1 true
        300 0 50 = none
    ∧ futility_step false false false true false false false 12 1 true
        300 0 50 ≠ some 300 := by
  refine ⟨by decide, by decide, by decide, by decide, by decide, by decide⟩

/-- Claim C6 (amended): futility pruning returns eval exactly under the
claim's conditions strengthened with the guards the code also requires:
not under nmpGuard, not in fullSearch mode, eval > −2·VALUE_KNOWN_WIN
(with eval < VALUE_KNOWN_WIN this is the code's |eval| < 2·KNOWN_WIN
guard), and no king danger — the latter probed only when
rootDepth > 10.  The margin is exactly futility_margin(depth,
improving) = 214·(depth − improving). -/
theorem futility_step_spec (kingDangerProbe : Bool) (rootDepth depth : Int)
    (improving : Bool) (eval alpha beta : Int)
    (h1 : depth < 6)
    (h2 : |alpha| < VALUE_KNOWN_WIN)
    (h3 : eval < VALUE_KNOWN_WIN)
    (h4 : eval - 214 * (depth - if improving then 1 else 0) ≥ beta)
    (h5 : -(2 * VALUE_KNOWN_WIN) < eval)
    (h6 : rootDepth ≤ 10 ∨ kingDangerProbe = false) :
    futility_step false false false false false false kingDangerProbe
      rootDepth depth improving eval alpha beta = some eval
    ∧ futility_margin depth improving =
        214 * (depth - if improving then 1 else 0) := by
  constructor
  · unfold futility_step futility_margin
    simp only [VALUE_KNOWN_WIN] at *
    have habs : |eval| < 20000 := by
      rw [abs_lt]; omega
    have hkd : (if rootDepth > 10 then kingDangerProbe else false) = false := by
      rcases h6 with h | h
      · rw [if_neg (by omega)]
      · split_ifs <;> simp [h]
    simp [habs, hkd, h1, h2, h3, h4]
  · rfl

/-- Witness for the amended C6 at a concrete input. -/
theorem futility_step_spec_witness :
    futility_step false false false false false false false 12 1 true
      300 0 50 = some 300 :=
  (futility_step_spec false 12 1 true 300 0 50 (by decide) (by decide)
    (by decide) (by decide) (by decide) (Or.inr rfl)).1

/-- Embedding of the no-legal-move result of the main search
(search.cpp:1583-1587): `bestValue = excludedMove ? alpha :
ss->inCheck ? mated_in(ss->ply) : VALUE_DRAW` (a move is truthy when it
differs from MOVE_NONE). -/
def no_move_best_value (excludedMove : Move) (inCheck : Bool)
    (ply alpha : Int) : Int :=
  if excludedMove ≠ MOVE_NONE then alpha
  else if inCheck then mated_in ply
  else VALUE_DRAW

/-- Claim C7: when the move loop explored no move, the returned value is
alpha when an excluded move is set, mated_in(ply) when in check, and
VALUE_DRAW (stalemate) otherwise. -/
theorem no_move_best_value_spec (excludedMove : Move) (inCheck : Bool)
    (ply alpha : Int) :
    (excludedMove ≠ MOVE_NONE →
      no_move_best_value excludedMove inCheck ply alpha = alpha)
    ∧ (excludedMove = MOVE_NONE → inCheck = true →
      no_move_best_value excludedMove inCheck ply alpha = mated_in ply)
    ∧ (excludedMove = MOVE_NONE → inCheck = false →
      no_move_best_value excludedMove inCheck ply alpha = VALUE_DRAW) := by
  refine ⟨?_, ?_, ?_⟩ <;> intro h <;>
    simp [no_move_best_value, h] <;> intro h2 <;> simp [h2]

/-- Witness for C7 at concrete inputs. -/
theorem no_move_best_value_spec_witness :
    no_move_best_value 33 false 4 (-7) = -7
    ∧ no_move_best_value MOVE_NONE true 4 (-7) = mated_in 4
    ∧ no_move_best_value MOVE_NONE false 4 (-7) = VALUE_DRAW :=
  ⟨(no_move_best_value_spec 33 false 4 (-7)).1 (by decide),
   (no_move_best_value_spec MOVE_NONE true 4 (-7)).2.1 rfl rfl,
   (no_move_best_value_spec MOVE_NONE false 4 (-7)).2.2 rfl rfl⟩

end SearchSpec

namespace SearchSpec

/-- Embedding of `stat_bonus` (search.cpp:88-90). -/
def stat_bonus (d : Int) : Int :=
  if d > 14 then 73 else 6 * d * d + 229 * d - 215

/-- bonus1 of `update_all_stats` (search.cpp:1947). -/
def update_all_stats_bonus1 (depth : Int) : Int := stat_bonus (depth + 1)

/-- bonus2 of `update_all_stats` (search.cpp:1948-1949). -/
def update_all_stats_bonus2 (depth bestValue beta : Int) : Int :=
  if bestValue > beta + PawnValueMg then update_all_stats_bonus1 depth
  else min (update_all_stats_bonus1 depth) (stat_bonus depth)

/-- Claim C9: in update_all_stats, for every depth d ≥ 0, bonus1 equals
stat_bonus(d+1) with stat_bonus(x) = 73 for x > 14 and
6x² + 229x − 215 otherwise, and bonus2 equals bonus1 when
bestValue > beta + PawnValueMg and min(bonus1, stat_bonus(d))
otherwise. -/
theorem update_all_stats_bonus_spec (d bestValue beta : Int)
    (hd : 0 ≤ d) :
    update_all_stats_bonus1 d = stat_bonus (d + 1)
    ∧ (∀ x : Int, stat_bonus x =
        if x > 14 then 73 else 6 * x * x + 229 * x - 215)
    ∧ (bestValue > beta + PawnValueMg →
        update_all_stats_bonus2 d bestValue beta =
          update_all_stats_bonus1 d)
    ∧ (bestValue ≤ beta + PawnValueMg →
        update_all_stats_bonus2 d bestValue beta =
          min (update_all_stats_bonus1 d) (stat_bonus d)) := by
  refine ⟨rfl, fun x => rfl, ?_, ?_⟩
  · intro h
    simp [update_all_stats_bonus2, h]
  · intro h
    simp [update_all_stats_bonus2, not_lt.mpr h]

/-- Witness for C9 at concrete inputs. -/
theorem update_all_stats_bonus_spec_witness :
    update_all_stats_bonus1 3 = stat_bonus 4
    ∧ update_all_stats_bonus2 3 500 100 = update_all_stats_bonus1 3
    ∧ update_all_stats_bonus2 3 100 100 =
        min (update_all_stats_bonus1 3) (stat_bonus 3) :=
  ⟨(update_all_stats_bonus_spec 3 500 100 (by decide)).1,
   (update_all_stats_bonus_spec 3 500 100 (by decide)).2.2.1 (by decide),
   (update_all_stats_bonus_spec 3 100 100 (by decide)).2.2.2 (by decide)⟩

/-- The copy loop of `update_pv` (search.cpp:1930-1931): moves of the
child PV are copied in order until (excluding) the first MOVE_NONE. -/
def copy_child_pv : List Move → List Move
  | [] => []
  | m :: ms => if m = MOVE_NONE then [] else m :: copy_child_pv ms

/-- Embedding of `update_pv` (search.cpp:1927-1932) as the list of moves
written into the destination buffer (which the caller guarantees to be
large enough): the current move, the child PV up to its MOVE_NONE
terminator when the child pointer is non-null, then the MOVE_NONE
terminator. -/
def update_pv (move : Move) (childPv : Option (List Move)) : List Move :=
  move ::
    ((match childPv with
      | none => []
      | some l => copy_child_pv l) ++ [MOVE_NONE])

/-- Copying stops exactly at the first MOVE_NONE terminator. -/
theorem copy_child_pv_append (pre suf : List Move)
    (h : MOVE_NONE ∉ pre) :
    copy_child_pv (pre ++ MOVE_NONE :: suf) = pre := by
  induction pre with
  | nil => simp [copy_child_pv]
  | cons m ms ih =>
      simp only [List.mem_cons, not_or] at h
      have hm : m ≠ MOVE_NONE := fun hc => h.1 hc.symm
      rw [List.cons_append, copy_child_pv, if_neg hm, ih h.2]

/-- Claim C10: after update_pv(pv, m, childPv) the destination holds m,
then exactly the moves of the child PV before its MOVE_NONE terminator,
then MOVE_NONE; and when childPv is null the result is just
[m, MOVE_NONE]. -/
theorem update_pv_spec (m : Move) (pre suf : List Move)
    (h : MOVE_NONE ∉ pre) :
    update_pv m (some (pre ++ MOVE_NONE :: suf)) =
      m :: (pre ++ [MOVE_NONE])
    ∧ update_pv m none = [m, MOVE_NONE] := by
  constructor
  · simp only [update_pv, copy_child_pv_append pre suf h]
  · rfl

/-- Witness for C10 at a concrete input. -/
theorem update_pv_spec_witness :
    update_pv 5 (some ([8, 9] ++ MOVE_NONE :: [4])) =
      5 :: ([8, 9] ++ [MOVE_NONE])
    ∧ update_pv 5 none = [5, MOVE_NONE] :=
  update_pv_spec 5 [8, 9] [4] (by decide)

end SearchSpec
